import Mathlib

/-!
Shallow embedding of the gateway router client (src/error.rs and
src/router/client.rs) together with the parts of the repository the
client uses that are outside those two files (the packet store, the
cache settings and the inbound mpsc channel), which are modelled from
the specification.

External collaborators (the transport, the packet-to-uplink conversion,
the downlink decoder, the keypair) are opaque: payload types are plain
naturals and the fallible external operations are function parameters
returning `Except`.
-/

namespace Gateway

/-- Opaque operating region parameter (external enum). -/
abbrev Region := Nat

/-- Opaque radio packet payload (external type). -/
abbrev Packet := Nat

/-- Arrival timestamp, in seconds (external `Instant`). -/
abbrev Instant := Nat

/-- Opaque wire uplink representation produced by packet conversion. -/
abbrev Uplink := Nat

/-- Opaque inbound transport envelope (external `helium_proto` message). -/
abbrev RouterMessage := Nat

/-- Opaque signing keypair capability (external). -/
abbrev Keypair := Nat

/-- Opaque state channel (crate::router::state_channel, outside src/);
only carried through the error taxonomy, never inspected. -/
structure StateChannel where
  data : Nat
deriving DecidableEq

/-- Per-summary admission errors, from src/error.rs `StateChannelSummaryError`. -/
inductive StateChannelSummaryError where
  | ZeroPacket
  | PacketDCMismatch
  | InvalidAddress

/-- State channel admission outcomes, from src/error.rs `StateChannelError`. -/
inductive StateChannelError where
  | Ignored (sc : StateChannel)
  | Inactive
  | NotFound (sc_id : List Nat)
  | InvalidOwner
  | Summary (err : StateChannelSummaryError)
  | NewChannel (sc : StateChannel)
  | CausalConflict (sc : StateChannel) (conflicts_with : StateChannel)
  | Overpaid (sc : StateChannel) (original_dc_amount : Nat)
  | Underpaid (sc : StateChannel)
  | LowBalance

/-- Service/transport errors, from src/error.rs `ServiceError`; payloads of
external error types are dropped. -/
inductive ServiceError where
  | Service
  | Rpc
  | Stream
  | Channel
  | NoService
  | Remote (msg : String)
  | Check (block_age : Nat) (max_age : Nat)
  | LocalClientConnect

/-- Onion errors, from src/error.rs `OnionError`. -/
inductive OnionError where
  | InvalidSize (seen : Nat)
  | NoRegionParams
  | NoChannel
  | InvalidKey
  | CryptoError

/-- Decode errors, from src/error.rs `DecodeError`; payloads of external
error types are dropped. -/
inductive DecodeError where
  | Uri
  | KeypairUri (msg : String)
  | KeyedUri (msg : String)
  | Json
  | Base64
  | Addr
  | Prost
  | LoraWan
  | LfcError
  | Semtech
  | InvalidCrc
  | InvalidEnvelope

/-- Region errors, from src/error.rs `RegionError`. -/
inductive RegionError where
  | NoRegionParams

/-- Top level error taxonomy, from src/error.rs `Error` (the `Box` around
the state channel payload is elided). -/
inductive Error where
  | Config
  | Custom (msg : String)
  | Io
  | CryptoError
  | Onion (err : OnionError)
  | Encode
  | Decode (err : DecodeError)
  | Service (err : ServiceError)
  | StateChannel (err : StateChannelError)
  | Semtech
  | Time
  | Region (err : RegionError)

/-- From src/error.rs `Error::channel`: the channel-closed service error. -/
def Error.channel : Error :=
  Error.Service ServiceError.Channel

/-- From src/error.rs `StateChannelError::causal_conflict`: wraps the
incoming channel and the stored channel it conflicts with. -/
def StateChannelError.causal_conflict (sc : StateChannel)
    (conflicts_with : StateChannel) : Error :=
  Error.StateChannel (StateChannelError.CausalConflict sc conflicts_with)

/-- Extracts the two channel versions carried by a causal-conflict error,
if the error is one. -/
def conflict_channels : Error → Option (StateChannel × StateChannel)
  | Error.StateChannel (StateChannelError.CausalConflict sc conflicts_with) =>
      some (sc, conflicts_with)
  | _ => none

/-- A queued uplink packet with its arrival timestamp (crate::router
`QuePacket`, outside src/; fields per the spec data model). -/
structure QuePacket where
  packet : Packet
  received : Instant
deriving DecidableEq

/-- Modelled from the spec: `CacheSettings` (loaded by an external
collaborator, outside src/) carries the store capacity and the GC
max-age, both mentioned by the configuration-inputs interface. -/
structure CacheSettings where
  max_packets : Nat
  gc_max_age : Nat
deriving DecidableEq

/-- Modelled from the spec: the Packet Store (crate::router `RouterStore`,
outside src/): an ordered FIFO sequence of queued packets with a capacity
bound. -/
structure RouterStore where
  waiting_packets : List QuePacket
  max_packets : Nat
deriving DecidableEq

/-- Modelled from the spec: a new store is empty with the capacity taken
from the cache settings. -/
def RouterStore.new (settings : CacheSettings) : RouterStore :=
  ⟨[], settings.max_packets⟩

/-- Modelled from the spec: `store_waiting_packet` appends at the tail;
when capacity is exceeded the oldest entries are dropped first. It never
fails on full, so the model is total. -/
def RouterStore.store_waiting_packet (store : RouterStore) (packet : Packet)
    (received : Instant) : RouterStore :=
  let q := store.waiting_packets ++ [⟨packet, received⟩]
  ⟨q.drop (q.length - store.max_packets), store.max_packets⟩

/-- Modelled from the spec: `pop_waiting_packet` removes and returns the
head (oldest) packet, or none if the queue is empty. -/
def RouterStore.pop_waiting_packet (store : RouterStore) :
    Option (QuePacket × RouterStore) :=
  match store.waiting_packets with
  | [] => none
  | p :: rest => some (p, ⟨rest, store.max_packets⟩)

/-- Modelled from the spec: `gc_waiting_packets max_age` removes every
packet whose age exceeds `max_age` (given the current time `now`),
preserves the relative order of survivors, and returns the number
removed. -/
def RouterStore.gc_waiting_packets (store : RouterStore) (max_age : Nat)
    (now : Nat) : RouterStore × Nat :=
  let keep := store.waiting_packets.filter
    (fun p => decide (now - p.received ≤ max_age))
  (⟨keep, store.max_packets⟩, store.waiting_packets.length - keep.length)

/-- From src/router/client.rs line 18: `STORE_GC_INTERVAL` is a fixed 60
seconds (durations are modelled in seconds). -/
def STORE_GC_INTERVAL : Nat := 60

/-- Messages accepted by the router client runtime, from
src/router/client.rs `Message`. -/
inductive Message where
  | Uplink (packet : Packet) (received : Instant)
  | RegionChanged (region : Region)
  | Stop

/-- Modelled from the spec: the inbound mpsc channel endpoint (tokio,
external). A bounded mpsc send awaits capacity and fails exactly when the
receiver has been dropped, so the sender is modelled by whether the
channel is closed. -/
def mpsc_send (closed : Bool) (_message : Message) : Except Unit Unit :=
  if closed then Except.error () else Except.ok ()

/-- From src/router/client.rs `MessageSender::uplink`: sends an Uplink
message and maps a send failure to `Error.channel`. -/
def MessageSender.uplink (closed : Bool) (packet : Packet)
    (received : Instant) : Except Error Unit :=
  match mpsc_send closed (Message.Uplink packet received) with
  | Except.error _ => Except.error Error.channel
  | Except.ok _ => Except.ok ()

/-- The router client state owned by the runtime loop, from
src/router/client.rs `RouterClient` (the transport handle and downlink
sink are external and carried as function parameters instead). -/
structure RouterClient where
  region : Region
  keypair : Keypair
  store : RouterStore
deriving DecidableEq

/-- From src/router/client.rs `RouterClient::new`: the store is built from
the cache settings; region and keypair are stored as given. -/
def RouterClient.new (region : Region) (keypair : Keypair)
    (settings : CacheSettings) : RouterClient :=
  ⟨region, keypair, RouterStore.new settings⟩

/-- From src/router/client.rs `RouterClient::send_packet`: convert the
queued packet to a wire uplink using the keypair and the current region
(external `to_uplink`, a parameter), then transmit it via the transport
(external `route`, a parameter). -/
def RouterClient.send_packet
    (to_uplink : QuePacket → Keypair → Region → Except Error Uplink)
    (route : Uplink → Except Error Unit)
    (keypair : Keypair) (region : Region) (packet : QuePacket) :
    Except Error Unit :=
  match to_uplink packet keypair region with
  | Except.error err => Except.error err
  | Except.ok up => route up

/-- The pop-and-send loop of `RouterClient::send_waiting_packets`, acting
on the store's queue. Returns the remaining queue, the loop's result, and
the trace of conversion attempts (each packet paired with the region its
conversion used). A send failure stops the loop at once. -/
def drain_packets
    (to_uplink : QuePacket → Keypair → Region → Except Error Uplink)
    (route : Uplink → Except Error Unit)
    (keypair : Keypair) (region : Region) :
    List QuePacket → List QuePacket × Except Error Unit × List (QuePacket × Region)
  | [] => ([], Except.ok (), [])
  | p :: rest =>
    match RouterClient.send_packet to_uplink route keypair region p with
    | Except.error err => (rest, Except.error err, [(p, region)])
    | Except.ok _ =>
      ((drain_packets to_uplink route keypair region rest).1,
       (drain_packets to_uplink route keypair region rest).2.1,
       (p, region) :: (drain_packets to_uplink route keypair region rest).2.2)

/-- From src/router/client.rs `RouterClient::send_waiting_packets`:
repeatedly pop the head packet and send it until the store is empty or a
send fails (the `?` propagates the first failure). -/
def RouterClient.send_waiting_packets
    (to_uplink : QuePacket → Keypair → Region → Except Error Uplink)
    (route : Uplink → Except Error Unit)
    (keypair : Keypair) (region : Region) (store : RouterStore) :
    RouterStore × Except Error Unit × List (QuePacket × Region) :=
  (⟨(drain_packets to_uplink route keypair region store.waiting_packets).1,
    store.max_packets⟩,
   (drain_packets to_uplink route keypair region store.waiting_packets).2.1,
   (drain_packets to_uplink route keypair region store.waiting_packets).2.2)

/-- From src/router/client.rs `RouterClient::handle_uplink`: store the
packet in the waiting queue, then drain the store. -/
def RouterClient.handle_uplink
    (to_uplink : QuePacket → Keypair → Region → Except Error Uplink)
    (route : Uplink → Except Error Unit)
    (self : RouterClient) (uplink : Packet) (received : Instant) :
    RouterClient × Except Error Unit × List (QuePacket × Region) :=
  let stored := self.store.store_waiting_packet uplink received
  ({ self with store :=
      (RouterClient.send_waiting_packets to_uplink route self.keypair
        self.region stored).1 },
   (RouterClient.send_waiting_packets to_uplink route self.keypair
     self.region stored).2.1,
   (RouterClient.send_waiting_packets to_uplink route self.keypair
     self.region stored).2.2)

/-- Outcome of the inbound transport poll `self.router.message()`, from
the match in src/router/client.rs lines 129-138: a received envelope, a
disconnect (`Ok(None)`), or a transport error. -/
inductive DownlinkResult where
  | message (msg : RouterMessage)
  | disconnected
  | err (e : Error)

/-- One completed arm of the `tokio::select!` in `RouterClient::run`:
which event source fired and what it yielded. -/
inductive Event where
  | Shutdown
  | Msg (message : Option Message)
  | GcTick (now : Nat)
  | Downlink (result : DownlinkResult)

/-- Whether a loop iteration falls through to the next iteration or
returns `Ok(())` from `run`. -/
inductive LoopOutcome where
  | continueLoop
  | exitOk
deriving DecidableEq

/-- One iteration of the `loop { tokio::select! { ... } }` in
src/router/client.rs `RouterClient::run`, lines 100-140. `try_from` is
the external downlink decoder `Packet::try_from`; the downlink sink only
logs on failure and does not touch the client state. The trace component
records the packet-conversion attempts the iteration makes. -/
def RouterClient.run_step
    (to_uplink : QuePacket → Keypair → Region → Except Error Uplink)
    (route : Uplink → Except Error Unit)
    (try_from : RouterMessage → Except Error Packet)
    (self : RouterClient) (event : Event) :
    RouterClient × LoopOutcome × List (QuePacket × Region) :=
  match event with
  | Event.Shutdown => (self, LoopOutcome.exitOk, [])
  | Event.Msg (some (Message.Uplink packet received)) =>
      ((RouterClient.handle_uplink to_uplink route self packet received).1,
       LoopOutcome.continueLoop,
       (RouterClient.handle_uplink to_uplink route self packet received).2.2)
  | Event.Msg (some (Message.RegionChanged region)) =>
      ({ self with region := region }, LoopOutcome.continueLoop, [])
  | Event.Msg (some Message.Stop) => (self, LoopOutcome.exitOk, [])
  | Event.Msg none => (self, LoopOutcome.continueLoop, [])
  | Event.GcTick now =>
      ({ self with store :=
          (self.store.gc_waiting_packets STORE_GC_INTERVAL now).1 },
       LoopOutcome.continueLoop, [])
  | Event.Downlink (DownlinkResult.message msg) =>
      match try_from msg with
      | Except.ok _packet => (self, LoopOutcome.continueLoop, [])
      | Except.error _err => (self, LoopOutcome.continueLoop, [])
  | Event.Downlink DownlinkResult.disconnected =>
      (self, LoopOutcome.continueLoop, [])
  | Event.Downlink (DownlinkResult.err _) =>
      (self, LoopOutcome.continueLoop, [])

/-- The whole `RouterClient::run` loop over a schedule of select
outcomes: iterate `run_step` until an iteration exits (the Bool records
whether the loop returned) and concatenate the conversion traces. -/
def RouterClient.run
    (to_uplink : QuePacket → Keypair → Region → Except Error Uplink)
    (route : Uplink → Except Error Unit)
    (try_from : RouterMessage → Except Error Packet)
    (self : RouterClient) :
    List Event → RouterClient × Bool × List (QuePacket × Region)
  | [] => (self, false, [])
  | event :: events =>
    match (RouterClient.run_step to_uplink route try_from self event).2.1 with
    | LoopOutcome.exitOk =>
      ((RouterClient.run_step to_uplink route try_from self event).1, true,
       (RouterClient.run_step to_uplink route try_from self event).2.2)
    | LoopOutcome.continueLoop =>
      ((RouterClient.run to_uplink route try_from
          (RouterClient.run_step to_uplink route try_from self event).1 events).1,
       (RouterClient.run to_uplink route try_from
          (RouterClient.run_step to_uplink route try_from self event).1 events).2.1,
       (RouterClient.run_step to_uplink route try_from self event).2.2 ++
         (RouterClient.run to_uplink route try_from
            (RouterClient.run_step to_uplink route try_from self event).1 events).2.2)

/-- Concrete conversion oracle for closed counterexamples: always
succeeds. -/
def tu0 : QuePacket → Keypair → Region → Except Error Uplink :=
  fun _ _ _ => Except.ok 0

/-- Concrete transport oracle for closed counterexamples: always
succeeds. -/
def rt0 : Uplink → Except Error Unit :=
  fun _ => Except.ok ()

/-- Concrete downlink decoder for closed counterexamples: always
succeeds. -/
def tf0 : RouterMessage → Except Error Packet :=
  fun _ => Except.ok 0

/-- Concrete client with an empty queue for closed counterexamples. -/
def client0 : RouterClient :=
  ⟨0, 0, ⟨[], 16⟩⟩

/-- Concrete cache settings with a GC max-age of 5 seconds. -/
def settings2 : CacheSettings :=
  ⟨16, 5⟩

/-- Concrete client holding one packet received at time 0, with the
capacity of `settings2`. -/
def client2 : RouterClient :=
  ⟨0, 0, ⟨[⟨7, 0⟩], settings2.max_packets⟩⟩

/-- Helper: one drain splits the starting queue into the packets whose
send was attempted (the trace, in order) followed by the untouched
remainder. -/
theorem drain_packets_decomp
    (to_uplink : QuePacket → Keypair → Region → Except Error Uplink)
    (route : Uplink → Except Error Unit)
    (keypair : Keypair) (region : Region) (q : List QuePacket) :
    q = ((drain_packets to_uplink route keypair region q).2.2).map Prod.fst ++
      (drain_packets to_uplink route keypair region q).1 := by
  induction q with
  | nil => rfl
  | cons p rest ih =>
    simp only [drain_packets]
    cases hs : RouterClient.send_packet to_uplink route keypair region p with
    | error err => simp
    | ok u => simpa using ih

/-- Helper: every conversion attempt recorded by one drain used the
region the drain was called with. -/
theorem drain_packets_all_region
    (to_uplink : QuePacket → Keypair → Region → Except Error Uplink)
    (route : Uplink → Except Error Unit)
    (keypair : Keypair) (region : Region) (q : List QuePacket) :
    ((drain_packets to_uplink route keypair region q).2.2).all
      (fun x => x.2 == region) = true := by
  induction q with
  | nil => rfl
  | cons p rest ih =>
    simp only [drain_packets]
    cases hs : RouterClient.send_packet to_uplink route keypair region p with
    | error err => simp
    | ok u => simpa using ih

/-- C1 counterexample: the claim says a closed inbound message channel
(`messages.recv()` returning None) makes the run loop exit. At a concrete
state the iteration that observes the closed channel does not exit: the
None arm only logs "ignoring closed uplinks channel" and falls through to
the next iteration. -/
theorem closed_channel_does_not_exit :
    (RouterClient.run_step tu0 rt0 tf0 client0 (Event.Msg none)).2.1 ≠
      LoopOutcome.exitOk := by
  decide

/-- C1 amended: when `messages.recv()` returns None the run loop logs a
warning, leaves the client state unchanged, attempts no sends, and
continues to the next iteration; a closed inbound channel never
terminates the loop. -/
theorem closed_channel_continues
    (to_uplink : QuePacket → Keypair → Region → Except Error Uplink)
    (route : Uplink → Except Error Unit)
    (try_from : RouterMessage → Except Error Packet)
    (self : RouterClient) :
    RouterClient.run_step to_uplink route try_from self (Event.Msg none) =
      (self, LoopOutcome.continueLoop, []) := by
  rfl

/-- C2 counterexample: the claim says each GC tick passes the cache
settings' GC max-age to `gc_waiting_packets`. With settings whose max-age
is 5 s and a queued packet of age 30 s, the tick leaves the packet in the
store, while GC at the settings' max-age would have evicted it: the
threshold the runtime passes is not the settings' max-age. -/
theorem gc_tick_ignores_settings_max_age :
    ((RouterClient.run_step tu0 rt0 tf0 client2 (Event.GcTick 30)).1).store.waiting_packets ≠
      ((client2.store.gc_waiting_packets settings2.gc_max_age 30).1).waiting_packets := by
  decide

/-- C2 amended: the max-age threshold the runtime passes to
`gc_waiting_packets` on each periodic GC tick is the fixed constant
`STORE_GC_INTERVAL` (60 s): after a tick at time `now` the surviving
queue is exactly the packets aged at most 60 s, in order, independent of
any cache settings. -/
theorem gc_tick_uses_store_gc_interval
    (to_uplink : QuePacket → Keypair → Region → Except Error Uplink)
    (route : Uplink → Except Error Unit)
    (try_from : RouterMessage → Except Error Packet)
    (self : RouterClient) (now : Nat) :
    ((RouterClient.run_step to_uplink route try_from self
        (Event.GcTick now)).1).store.waiting_packets =
      self.store.waiting_packets.filter
        (fun p => decide (now - p.received ≤ STORE_GC_INTERVAL)) := by
  rfl

/-- C3: each drain splits the queue into the popped packets (each
appearing exactly once in the attempt trace, so each transmission is
attempted at most once) followed by the packets still queued; a packet
whose send failed is in the trace and not in the final store, so it was
removed before the send and never re-inserted. -/
theorem drain_attempts_each_pop_once
    (to_uplink : QuePacket → Keypair → Region → Except Error Uplink)
    (route : Uplink → Except Error Unit)
    (keypair : Keypair) (region : Region) (store : RouterStore) :
    store.waiting_packets =
      ((RouterClient.send_waiting_packets to_uplink route keypair region
          store).2.2).map Prod.fst ++
        ((RouterClient.send_waiting_packets to_uplink route keypair region
          store).1).waiting_packets := by
  simpa [RouterClient.send_waiting_packets] using
    drain_packets_decomp to_uplink route keypair region store.waiting_packets

/-- C4: the Uplink arm stores the packet, then drains; whatever the drain
result (in particular when a send fails and aborts the drain), the
iteration continues the loop rather than exiting, and the queue after
storing equals the attempted packets followed by the packets still queued
for the next trigger. -/
theorem uplink_stores_then_drains
    (to_uplink : QuePacket → Keypair → Region → Except Error Uplink)
    (route : Uplink → Except Error Unit)
    (try_from : RouterMessage → Except Error Packet)
    (self : RouterClient) (packet : Packet) (received : Instant) :
    (RouterClient.run_step to_uplink route try_from self
        (Event.Msg (some (Message.Uplink packet received)))).2.1 =
      LoopOutcome.continueLoop ∧
    (self.store.store_waiting_packet packet received).waiting_packets =
      ((RouterClient.run_step to_uplink route try_from self
          (Event.Msg (some (Message.Uplink packet received)))).2.2).map Prod.fst ++
        ((RouterClient.run_step to_uplink route try_from self
            (Event.Msg (some (Message.Uplink packet received)))).1).store.waiting_packets := by
  constructor
  · rfl
  · simpa [RouterClient.run_step, RouterClient.handle_uplink,
      RouterClient.send_waiting_packets] using
      drain_packets_decomp to_uplink route self.keypair self.region
        (self.store.store_waiting_packet packet received).waiting_packets

/-- C5: the uplink submission API returns the channel-closed service
error when the runtime's inbound channel is closed and success otherwise,
so it fails exactly when the channel is closed. -/
theorem uplink_fails_iff_channel_closed (packet : Packet)
    (received : Instant) :
    MessageSender.uplink true packet received =
        Except.error Error.channel ∧
      MessageSender.uplink false packet received = Except.ok () := by
  constructor <;> rfl

/-- C6: processing RegionChanged r swaps the region to r, leaves the
queued packets untouched (so nothing already converted is revisited), and
every conversion attempted by a subsequent uplink drain uses r. -/
theorem region_changed_applies_to_later_sends
    (to_uplink : QuePacket → Keypair → Region → Except Error Uplink)
    (route : Uplink → Except Error Unit)
    (try_from : RouterMessage → Except Error Packet)
    (self : RouterClient) (r : Region) (packet : Packet)
    (received : Instant) :
    ((RouterClient.run_step to_uplink route try_from self
        (Event.Msg (some (Message.RegionChanged r)))).1).region = r ∧
    ((RouterClient.run_step to_uplink route try_from self
        (Event.Msg (some (Message.RegionChanged r)))).1).store = self.store ∧
    ((RouterClient.run_step to_uplink route try_from
        (RouterClient.run_step to_uplink route try_from self
          (Event.Msg (some (Message.RegionChanged r)))).1
        (Event.Msg (some (Message.Uplink packet received)))).2.2).all
      (fun x => x.2 == r) = true := by
  refine ⟨rfl, rfl, ?_⟩
  simpa [RouterClient.run_step, RouterClient.handle_uplink,
    RouterClient.send_waiting_packets] using
    drain_packets_all_region to_uplink route self.keypair r
      ((self.store.store_waiting_packet packet received).waiting_packets)

/-- C7: when the shutdown signal fires, that very iteration returns
success and the remaining schedule is never processed: the loop result is
the untouched state, a completed flag, and an empty trace of send
attempts. -/
theorem shutdown_exits_without_sends
    (to_uplink : QuePacket → Keypair → Region → Except Error Uplink)
    (route : Uplink → Except Error Unit)
    (try_from : RouterMessage → Except Error Packet)
    (self : RouterClient) (events : List Event) :
    RouterClient.run to_uplink route try_from self
        (Event.Shutdown :: events) = (self, true, []) := by
  rfl

/-- C8: every outcome of the inbound transport poll — a transport error,
a disconnect, or a received envelope whatever its decode result — leaves
the client state unchanged, attempts no sends, and continues the loop. -/
theorem downlink_errors_never_exit
    (to_uplink : QuePacket → Keypair → Region → Except Error Uplink)
    (route : Uplink → Except Error Unit)
    (try_from : RouterMessage → Except Error Packet)
    (self : RouterClient) (result : DownlinkResult) :
    RouterClient.run_step to_uplink route try_from self
        (Event.Downlink result) = (self, LoopOutcome.continueLoop, []) := by
  cases result with
  | message msg =>
    simp only [RouterClient.run_step]
    cases try_from msg <;> rfl
  | disconnected => rfl
  | err e => rfl

/-- C9: the causal-conflict outcome built by
`StateChannelError::causal_conflict` carries both channel versions — the
incoming channel and the stored channel it conflicts with — unchanged
inside the CausalConflict variant. -/
theorem causal_conflict_retains_both_channels (sc : StateChannel)
    (conflicts_with : StateChannel) :
    conflict_channels (StateChannelError.causal_conflict sc conflicts_with) =
      some (sc, conflicts_with) := by
  rfl

/-- C10: a single drain cycle triggered by one Uplink message converts
every popped packet under one and the same region — the client's region
at the start of the iteration — since messages (including RegionChanged)
are only consumed between select iterations. -/
theorem drain_cycle_uses_single_region
    (to_uplink : QuePacket → Keypair → Region → Except Error Uplink)
    (route : Uplink → Except Error Unit)
    (try_from : RouterMessage → Except Error Packet)
    (self : RouterClient) (packet : Packet) (received : Instant) :
    ((RouterClient.run_step to_uplink route try_from self
        (Event.Msg (some (Message.Uplink packet received)))).2.2).all
      (fun x => x.2 == self.region) = true := by
  simpa [RouterClient.run_step, RouterClient.handle_uplink,
    RouterClient.send_waiting_packets] using
    drain_packets_all_region to_uplink route self.keypair self.region
      ((self.store.store_waiting_packet packet received).waiting_packets)

end Gateway
